import Mathlib

/-!
Shallow embedding of the githaul repository synchronizer (src/githaul.py):
the command runner `run_command`, the status classifier `local_repo_status`,
the submodule updater `ensure_submodules`, and the action orchestrator
`do_updates_and_clones`.

Every external effect (a subprocess completing or failing to execute, a
filesystem probe, the wall clock) is supplied by an environment record, so
the embedded functions are pure functions of the source code's control flow
over those supplied outcomes, exactly mirroring the Python decision logic.
-/

/-- Outcome of one attempt to execute an external subprocess, as seen by
`run_command`: either the process completed (with a return code, raw stdout
and raw stderr), or execution itself failed (process could not start, or the
timeout elapsed), carrying the exception description. -/
inductive ExecOutcome where
  | completed (returncode : Int) (stdout : String) (stderr : String)
  | failed (descr : String)
deriving DecidableEq, Repr

/-- Embedding of Python `str.strip()` on a character list: whitespace is
removed from both ends. -/
def stripChars (cs : List Char) : List Char :=
  ((cs.dropWhile Char.isWhitespace).reverse.dropWhile Char.isWhitespace).reverse

/-- Embedding of Python `str.strip()`. -/
def pyStrip (s : String) : String :=
  ⟨stripChars s.data⟩

/-- Helper for `pySplitWS`: splits a character list on whitespace runs,
accumulating the current (reversed) token. -/
def splitWSAux : List Char → List Char → List String
  | [], acc => if acc = [] then [] else [⟨acc.reverse⟩]
  | c :: cs, acc =>
    if c.isWhitespace then
      (if acc = [] then splitWSAux cs [] else ⟨acc.reverse⟩ :: splitWSAux cs [])
    else splitWSAux cs (c :: acc)

/-- Embedding of Python `str.split()` with no separator: splits on runs of
whitespace and never yields empty tokens. -/
def pySplitWS (s : String) : List String :=
  splitWSAux s.data []

/-- Embedding of `run_command` (githaul.py lines 56-64): runs a command and
returns the triple `(exit_code, stdout.strip(), stderr.strip())`; any
exception during execution is absorbed and mapped to exit code `99` with
empty stdout and the exception text as stderr.  The `cmd`, `cwd` and
`timeout` arguments mirror the Python signature; the `outcome` argument
models what `subprocess.run` did for this particular invocation. -/
def run_command (cmd : List String) (cwd : Option String) (timeout : Nat)
    (outcome : ExecOutcome) : Int × String × String :=
  match cmd, cwd, timeout, outcome with
  | _, _, _, ExecOutcome.completed code out err => (code, pyStrip out, pyStrip err)
  | _, _, _, ExecOutcome.failed descr => (99, "", descr)

/-- Digits-only parse of a nonempty list of characters to a natural number,
the helper behind `parseIntQ`. -/
def digitsToNat (cs : List Char) : Option Nat :=
  if cs ≠ [] ∧ cs.all Char.isDigit then
    some (cs.foldl (fun n c => n * 10 + (c.toNat - 48)) 0)
  else none

/-- Embedding of Python `int(token)` on a whitespace-free token: an optional
single leading sign followed by at least one decimal digit. -/
def parseIntQ (s : String) : Option Int :=
  match s.data with
  | [] => none
  | c :: cs =>
    if c = '-' then (digitsToNat cs).map (fun n => -(n : Int))
    else if c = '+' then (digitsToNat cs).map (fun n => (n : Int))
    else (digitsToNat (c :: cs)).map (fun n => (n : Int))

/-- Embedding of githaul.py lines 179-182: `behind, ahead =
map(int, ahead_behind.strip().split())`, with every failure (wrong token
count, non-integer token) caught and mapped to `(0, 0)`. -/
def parseCounts (s : String) : Int × Int :=
  match pySplitWS (pyStrip s) with
  | [x, y] =>
    match parseIntQ x, parseIntQ y with
    | some bx, some ay => (bx, ay)
    | _, _ => (0, 0)
  | _ => (0, 0)

/-- Environment for one classification of one repository: the filesystem
probes and the outcome of each subprocess the classifier may run, plus
`daysSince`, which models `datetime.fromisoformat` on the reported commit
timestamp followed by the naive day-count subtraction from
`datetime.utcnow()` (githaul.py lines 195-196); `none` models a parse
failure (the `except` branch). -/
structure GitEnv where
  gitDirIsDir : Bool
  gitmodulesIsFile : Bool
  statusOutcome : ExecOutcome
  branchOutcome : ExecOutcome
  remoteUpdateOutcome : ExecOutcome
  revListOutcome : ExecOutcome
  lsFilesOutcome : ExecOutcome
  logOutcome : ExecOutcome
  daysSince : String → Option Int

/-- Embedding of `repo_has_submodules` (githaul.py lines 152-154): the
`.gitmodules` presence probe at the repository path. -/
def repo_has_submodules (env : GitEnv) : Bool :=
  env.gitmodulesIsFile

/-- Result of the `git status --porcelain` call of the classifier
(githaul.py line 164). -/
def clsStatus (p : String) (env : GitEnv) : Int × String × String :=
  run_command ["git", "status", "--porcelain"] (some p) 40 env.statusOutcome

/-- Result of the `git rev-parse --abbrev-ref HEAD` call of the classifier
(githaul.py line 168). -/
def clsBranch (p : String) (env : GitEnv) : Int × String × String :=
  run_command ["git", "rev-parse", "--abbrev-ref", "HEAD"] (some p) 40 env.branchOutcome

/-- Result of the `git remote update` call of the classifier
(githaul.py line 171). -/
def clsRemote (p : String) (env : GitEnv) : Int × String × String :=
  run_command ["git", "remote", "update"] (some p) 40 env.remoteUpdateOutcome

/-- Result of the `git rev-list --left-right --count HEAD...@\x7bu\x7d` call
of the classifier (githaul.py lines 174-176). -/
def clsRevList (p : String) (env : GitEnv) : Int × String × String :=
  run_command ["git", "rev-list", "--left-right", "--count", "HEAD...@\x7bu\x7d"]
    (some p) 40 env.revListOutcome

/-- Result of the `git ls-files --unmerged` call of the classifier
(githaul.py line 183). -/
def clsUnmerged (p : String) (env : GitEnv) : Int × String × String :=
  run_command ["git", "ls-files", "--unmerged"] (some p) 40 env.lsFilesOutcome

/-- Result of the `git log --pretty=format:%cI HEAD..@\x7bu\x7d -1` call of
the classifier (githaul.py lines 191-192). -/
def clsLog (p : String) (env : GitEnv) : Int × String × String :=
  run_command ["git", "log", "--pretty=format:%cI", "HEAD..@\x7bu\x7d", "-1"]
    (some p) 40 env.logOutcome

/-- Embedding of githaul.py lines 191-200: the elapsed whole days since the
most recent upstream-only commit; `0` when the log command fails, yields no
timestamp, or the timestamp does not parse. -/
def clsDays (p : String) (env : GitEnv) : Int :=
  if (clsLog p env).1 = 0 ∧ (clsLog p env).2.1 ≠ "" then
    (env.daysSince (clsLog p env).2.1).getD 0
  else 0

/-- Embedding of `local_repo_status` (githaul.py lines 156-207), the status
classifier: returns `(status_string, current_branch, has_submodules)`.  The
`remote_url` parameter mirrors the Python signature (it is unused in the
body, exactly as in the source). -/
def local_repo_status (repo_path : String) (remote_url : String) (env : GitEnv) :
    String × String × Bool :=
  if ¬ env.gitDirIsDir then ("NOT PRESENT", "-", false)
  else if (clsStatus repo_path env).1 ≠ 0 then
    ("CONFLICT", "-", repo_has_submodules env)
  else
    let dirty := pyStrip (clsStatus repo_path env).2.1 ≠ ""
    if (clsBranch repo_path env).1 ≠ 0 then
      ("CONFLICT", "-", repo_has_submodules env)
    else
      let branch := (clsBranch repo_path env).2.1
      if (clsRemote repo_path env).1 ≠ 0 then
        ("CONFLICT", branch, repo_has_submodules env)
      else if (clsRevList repo_path env).1 ≠ 0 then
        ((if dirty then "MODIFIED" else "SYNCHRONIZED"), branch, repo_has_submodules env)
      else
        let behind := (parseCounts (clsRevList repo_path env).2.1).1
        let ahead := (parseCounts (clsRevList repo_path env).2.1).2
        if (clsUnmerged repo_path env).1 = 0 ∧ pyStrip (clsUnmerged repo_path env).2.1 ≠ "" then
          ("CONFLICT", branch, repo_has_submodules env)
        else if dirty ∧ (behind > 0 ∨ ahead > 0) then
          ("DESYNCHRONIZED", branch, repo_has_submodules env)
        else if dirty then
          ("MODIFIED", branch, repo_has_submodules env)
        else if behind > 0 then
          if clsDays repo_path env ≥ 30 then ("OBSOLETE", branch, repo_has_submodules env)
          else ("OUT OF DATE", branch, repo_has_submodules env)
        else if ahead > 0 then
          ("MODIFIED", branch, repo_has_submodules env)
        else ("SYNCHRONIZED", branch, repo_has_submodules env)

/-- One observable step of the orchestrator: execution of an external
command (with its working directory), a warning-level message (the yellow
and red `console.print` calls), or an informational message. -/
inductive Event where
  | exec (cwd : Option String) (args : List String)
  | warn (msg : String)
  | info (msg : String)
deriving DecidableEq, Repr

/-- A classified repository record as built by `check_repos`
(githaul.py lines 209-226). -/
structure RepoRecord where
  name : String
  status : String
  branch : String
  path : String
  remote_url : String
  has_submodules : Bool
deriving DecidableEq, Repr

/-- Environment for the orchestrator acting on one repository path: the
outcome of each subprocess it may run there, plus the `.gitmodules` probe
used by `ensure_submodules`. -/
structure OrchEnv where
  fetchOutcome : ExecOutcome
  statusOutcome : ExecOutcome
  lsFilesOutcome : ExecOutcome
  pullOutcome : ExecOutcome
  cloneOutcome : ExecOutcome
  subInitOutcome : ExecOutcome
  subUpdateOutcome : ExecOutcome
  gitmodulesIsFile : Bool

/-- Result of the `git fetch` call the orchestrator issues at path `p`
(githaul.py lines 327 and 363). -/
def orchFetch (e : OrchEnv) (p : String) : Int × String × String :=
  run_command ["git", "fetch"] (some p) 40 e.fetchOutcome

/-- Result of the post-fetch `git status --porcelain` re-check
(githaul.py line 331). -/
def orchStatus (e : OrchEnv) (p : String) : Int × String × String :=
  run_command ["git", "status", "--porcelain"] (some p) 40 e.statusOutcome

/-- Result of the post-fetch `git ls-files --unmerged` re-check
(githaul.py line 333). -/
def orchUnmerged (e : OrchEnv) (p : String) : Int × String × String :=
  run_command ["git", "ls-files", "--unmerged"] (some p) 40 e.lsFilesOutcome

/-- Result of the `git pull` call (githaul.py line 336). -/
def orchPull (e : OrchEnv) (p : String) : Int × String × String :=
  run_command ["git", "pull"] (some p) 40 e.pullOutcome

/-- Result of the `git clone` call (githaul.py line 353); note the source
passes no working directory to `run_command` here. -/
def orchClone (e : OrchEnv) (url dest : String) : Int × String × String :=
  run_command ["git", "clone", url, dest] none 40 e.cloneOutcome

/-- Result of the `git submodule init` call (githaul.py line 277). -/
def orchSubInit (e : OrchEnv) (p : String) : Int × String × String :=
  run_command ["git", "submodule", "init"] (some p) 40 e.subInitOutcome

/-- Result of the `git submodule update --recursive` call
(githaul.py line 281). -/
def orchSubUpdate (e : OrchEnv) (p : String) : Int × String × String :=
  run_command ["git", "submodule", "update", "--recursive"] (some p) 40 e.subUpdateOutcome

/-- Embedding of `ensure_submodules` (githaul.py lines 273-285): a no-op
when `.gitmodules` is absent; otherwise `git submodule init`, then on its
success `git submodule update --recursive`, each failure reported as a
warning only.  Messages use the repository path where the source prints
`repo_path.name`. -/
def ensure_submodules (e : OrchEnv) (p : String) : List Event :=
  if ¬ e.gitmodulesIsFile then []
  else
    Event.exec (some p) ["git", "submodule", "init"] ::
    (if (orchSubInit e p).1 ≠ 0 then
       [Event.warn ("Warning: git submodule init failed in " ++ p ++ ": " ++ (orchSubInit e p).2.2)]
     else
       Event.exec (some p) ["git", "submodule", "update", "--recursive"] ::
       (if (orchSubUpdate e p).1 ≠ 0 then
          [Event.warn ("Warning: git submodule update failed in " ++ p ++ ": " ++ (orchSubUpdate e p).2.2)]
        else
          [Event.info ("Submodules updated in " ++ p)]))

/-- Embedding of the Phase A (catch-up) loop body for one confirmed member
(githaul.py lines 324-347): fetch; on fetch failure warn and stop; otherwise
re-check dirtiness and unmerged paths (ignoring those exit codes, exactly as
the source does), pull only when both re-checks are clean, and invoke
`ensure_submodules` in either branch. -/
def phaseA_member (e : OrchEnv) (r : RepoRecord) : List Event :=
  Event.info ("Updating repository " ++ r.name ++ "...") ::
  Event.exec (some r.path) ["git", "fetch"] ::
  (if (orchFetch e r.path).1 ≠ 0 then
     [Event.warn ("git fetch failed for " ++ r.name ++ ": " ++ (orchFetch e r.path).2.2)]
   else
     Event.exec (some r.path) ["git", "status", "--porcelain"] ::
     Event.exec (some r.path) ["git", "ls-files", "--unmerged"] ::
     (let dirty := pyStrip (orchStatus e r.path).2.1 ≠ ""
      let conflict := pyStrip (orchUnmerged e r.path).2.1 ≠ ""
      if ¬ dirty ∧ ¬ conflict then
        Event.exec (some r.path) ["git", "pull"] ::
        ((if (orchPull e r.path).1 ≠ 0 then
            [Event.warn ("git pull failed for " ++ r.name ++ ": " ++ (orchPull e r.path).2.2)]
          else
            [Event.info ("Pulled latest changes for " ++ r.name)]) ++
         ensure_submodules e r.path)
      else
        (if dirty then
           [Event.warn ("Skipped pull in " ++ r.name ++ " due to local changes")]
         else []) ++
        (if conflict then
           [Event.warn ("Skipped pull in " ++ r.name ++ " due to merge conflicts")]
         else []) ++
        ensure_submodules e r.path))

/-- Embedding of the Phase B (clone) loop body for one confirmed member
(githaul.py lines 349-358). -/
def phaseB_member (e : OrchEnv) (r : RepoRecord) : List Event :=
  Event.info ("Cloning repository " ++ r.name ++ "...") ::
  Event.exec none ["git", "clone", r.remote_url, r.path] ::
  (if (orchClone e r.remote_url r.path).1 ≠ 0 then
     [Event.warn ("git clone failed for " ++ r.name ++ ": " ++ (orchClone e r.remote_url r.path).2.2)]
   else
     ensure_submodules e r.path ++ [Event.info ("Cloned " ++ r.name)])

/-- Embedding of the Phase C (fetch-only) loop body for one confirmed member
(githaul.py lines 360-368). -/
def phaseC_member (e : OrchEnv) (r : RepoRecord) : List Event :=
  Event.info ("Fetching latest info for " ++ r.name ++ " (" ++ r.status ++ ")...") ::
  Event.exec (some r.path) ["git", "fetch"] ::
  (if (orchFetch e r.path).1 ≠ 0 then
     [Event.warn ("git fetch failed for " ++ r.name ++ ": " ++ (orchFetch e r.path).2.2)]
   else
     ensure_submodules e r.path ++ [Event.info ("Fetched for " ++ r.name)])

/-- Members needing Phase A treatment (githaul.py line 294): the records
grouped under `OUT OF DATE`, then those under `OBSOLETE`, preserving the
original order inside each group exactly as the insertion-ordered grouping
dictionary does. -/
def need_update (checked : List RepoRecord) : List RepoRecord :=
  checked.filter (fun r => r.status == "OUT OF DATE") ++
  checked.filter (fun r => r.status == "OBSOLETE")

/-- Members needing Phase B treatment (githaul.py line 304). -/
def need_clone (checked : List RepoRecord) : List RepoRecord :=
  checked.filter (fun r => r.status == "NOT PRESENT")

/-- Members needing Phase C treatment (githaul.py lines 292 and 314). -/
def need_fetch (checked : List RepoRecord) : List RepoRecord :=
  checked.filter (fun r => r.status == "MODIFIED") ++
  checked.filter (fun r => r.status == "CONFLICT") ++
  checked.filter (fun r => r.status == "DESYNCHRONIZED")

/-- Embedding of `do_updates_and_clones` (githaul.py lines 287-368) as the
sequence of observable events: per-group listings, then the three phase
loops.  `oe` supplies the per-path orchestration environment; `ansUpdate`,
`ansClone` and `ansFetch` are the operator answers to the three group
prompts (a prompt is only posed when its group is non-empty, so an empty
group always behaves as an unconfirmed one, as in the source). -/
def do_updates_and_clones (oe : String → OrchEnv) (checked : List RepoRecord)
    (ansUpdate ansClone ansFetch : Bool) : List Event :=
  let nu := need_update checked
  let nc := need_clone checked
  let nf := need_fetch checked
  let update_all := !nu.isEmpty && ansUpdate
  let clone_all := !nc.isEmpty && ansClone
  let fetch_all := !nf.isEmpty && ansFetch
  (if !nu.isEmpty then
     Event.info "The following repositories are out of date or obsolete:" ::
     nu.map (fun r => Event.info ("  " ++ r.name ++ " (" ++ r.status ++ ")"))
   else []) ++
  (if !nc.isEmpty then
     Event.info "The following repositories are not present locally:" ::
     nc.map (fun r => Event.info ("  " ++ r.name))
   else []) ++
  (if !nf.isEmpty then
     Event.info "The following repositories have local changes/conflicts:" ::
     nf.map (fun r => Event.info ("  " ++ r.name ++ " (" ++ r.status ++ ")"))
   else []) ++
  nu.flatMap (fun r => if update_all then phaseA_member (oe r.path) r else []) ++
  nc.flatMap (fun r => if clone_all then phaseB_member (oe r.path) r else []) ++
  nf.flatMap (fun r => if fetch_all then phaseC_member (oe r.path) r else [])

/-- The argument vectors of the commands a trace executes at working
directory `p`. -/
def execsAt (p : String) (evs : List Event) : List (List String) :=
  evs.filterMap (fun ev =>
    match ev with
    | Event.exec (some q) args => if q = p then some args else none
    | _ => none)

/-- A fully successful classification environment whose upstream comparison
reports `3 2` (the code parses `behind = 3`, `ahead = 2`) on a clean tree:
the classifier yields `OUT OF DATE` despite the positive ahead count. -/
def envC1 : GitEnv := {
  gitDirIsDir := true
  gitmodulesIsFile := false
  statusOutcome := ExecOutcome.completed 0 "" ""
  branchOutcome := ExecOutcome.completed 0 "main" ""
  remoteUpdateOutcome := ExecOutcome.completed 0 "" ""
  revListOutcome := ExecOutcome.completed 0 "3 2" ""
  lsFilesOutcome := ExecOutcome.completed 0 "" ""
  logOutcome := ExecOutcome.completed 0 "2025-09-01T00:00:00+00:00" ""
  daysSince := fun _ => some 5 }

/-- An orchestration environment in which every subprocess succeeds with
empty output and no `.gitmodules` file is present. -/
def oeC1 : OrchEnv := {
  fetchOutcome := ExecOutcome.completed 0 "" ""
  statusOutcome := ExecOutcome.completed 0 "" ""
  lsFilesOutcome := ExecOutcome.completed 0 "" ""
  pullOutcome := ExecOutcome.completed 0 "" ""
  cloneOutcome := ExecOutcome.completed 0 "" ""
  subInitOutcome := ExecOutcome.completed 0 "" ""
  subUpdateOutcome := ExecOutcome.completed 0 "" ""
  gitmodulesIsFile := false }

/-- The record `check_repos` builds for the repository classified by
`envC1`. -/
def rC1 : RepoRecord := {
  name := "demo"
  status := "OUT OF DATE"
  branch := "main"
  path := "root/demo"
  remote_url := "git@alias:owner/demo.git"
  has_submodules := false }

/-- A record classified `MODIFIED`, used to exercise the Phase C group. -/
def rC2 : RepoRecord := {
  name := "demo"
  status := "MODIFIED"
  branch := "main"
  path := "root/demo"
  remote_url := "git@alias:owner/demo.git"
  has_submodules := false }

/-- A classification environment in which every query succeeds on a clean,
fully synchronized tree except the unmerged-path query, whose execution
fails. -/
def envC3 : GitEnv := {
  gitDirIsDir := true
  gitmodulesIsFile := false
  statusOutcome := ExecOutcome.completed 0 "" ""
  branchOutcome := ExecOutcome.completed 0 "main" ""
  remoteUpdateOutcome := ExecOutcome.completed 0 "" ""
  revListOutcome := ExecOutcome.completed 0 "0 0" ""
  lsFilesOutcome := ExecOutcome.failed "ls-files could not be executed"
  logOutcome := ExecOutcome.completed 0 "" ""
  daysSince := fun _ => none }

/-- A classification environment with a clean tree, a non-empty unmerged
listing, and a failing ahead/behind count query. -/
def envC4 : GitEnv := {
  gitDirIsDir := true
  gitmodulesIsFile := false
  statusOutcome := ExecOutcome.completed 0 "" ""
  branchOutcome := ExecOutcome.completed 0 "main" ""
  remoteUpdateOutcome := ExecOutcome.completed 0 "" ""
  revListOutcome := ExecOutcome.failed "rev-list could not be executed"
  lsFilesOutcome := ExecOutcome.completed 0 "100644 0a1b2c3d 1 conflicted.txt" ""
  logOutcome := ExecOutcome.completed 0 "" ""
  daysSince := fun _ => none }

/-- A classification environment with a dirty tree, divergence in both
directions, and a non-empty unmerged listing. -/
def envC4W : GitEnv := {
  gitDirIsDir := true
  gitmodulesIsFile := false
  statusOutcome := ExecOutcome.completed 0 " M file.c" ""
  branchOutcome := ExecOutcome.completed 0 "main" ""
  remoteUpdateOutcome := ExecOutcome.completed 0 "" ""
  revListOutcome := ExecOutcome.completed 0 "5 4" ""
  lsFilesOutcome := ExecOutcome.completed 0 "100644 0a1b2c3d 1 conflicted.txt" ""
  logOutcome := ExecOutcome.completed 0 "" ""
  daysSince := fun _ => none }

/-- A bare path: no `.git` directory, but a `.gitmodules` file present. -/
def envC5 : GitEnv := {
  gitDirIsDir := false
  gitmodulesIsFile := true
  statusOutcome := ExecOutcome.completed 0 "" ""
  branchOutcome := ExecOutcome.completed 0 "main" ""
  remoteUpdateOutcome := ExecOutcome.completed 0 "" ""
  revListOutcome := ExecOutcome.completed 0 "0 0" ""
  lsFilesOutcome := ExecOutcome.completed 0 "" ""
  logOutcome := ExecOutcome.completed 0 "" ""
  daysSince := fun _ => none }

/-- A clean tree that is behind by 2 with the most recent upstream-only
commit exactly 30 days old. -/
def envC6W : GitEnv := {
  gitDirIsDir := true
  gitmodulesIsFile := false
  statusOutcome := ExecOutcome.completed 0 "" ""
  branchOutcome := ExecOutcome.completed 0 "main" ""
  remoteUpdateOutcome := ExecOutcome.completed 0 "" ""
  revListOutcome := ExecOutcome.completed 0 "2 0" ""
  lsFilesOutcome := ExecOutcome.completed 0 "" ""
  logOutcome := ExecOutcome.completed 0 "2025-09-12T10:00:00+00:00" ""
  daysSince := fun _ => some 30 }

/-- A dirty tree that is behind by 1 with no unmerged paths. -/
def envC7W : GitEnv := {
  gitDirIsDir := true
  gitmodulesIsFile := false
  statusOutcome := ExecOutcome.completed 0 " M file.c" ""
  branchOutcome := ExecOutcome.completed 0 "main" ""
  remoteUpdateOutcome := ExecOutcome.completed 0 "" ""
  revListOutcome := ExecOutcome.completed 0 "1 0" ""
  lsFilesOutcome := ExecOutcome.completed 0 "" ""
  logOutcome := ExecOutcome.completed 0 "" ""
  daysSince := fun _ => none }

/-- An orchestration environment in which the fetch succeeds but both
post-fetch re-check commands fail to execute. -/
def oeC10 : OrchEnv := {
  fetchOutcome := ExecOutcome.completed 0 "" ""
  statusOutcome := ExecOutcome.failed "status could not be executed"
  lsFilesOutcome := ExecOutcome.failed "ls-files could not be executed"
  pullOutcome := ExecOutcome.completed 0 "" ""
  cloneOutcome := ExecOutcome.completed 0 "" ""
  subInitOutcome := ExecOutcome.completed 0 "" ""
  subUpdateOutcome := ExecOutcome.completed 0 "" ""
  gitmodulesIsFile := false }

/-- An orchestration environment in which the fetch succeeds but the
post-fetch status re-check reports a dirty tree. -/
def oeC8 : OrchEnv := {
  fetchOutcome := ExecOutcome.completed 0 "" ""
  statusOutcome := ExecOutcome.completed 0 " M file.c" ""
  lsFilesOutcome := ExecOutcome.completed 0 "" ""
  pullOutcome := ExecOutcome.completed 0 "" ""
  cloneOutcome := ExecOutcome.completed 0 "" ""
  subInitOutcome := ExecOutcome.completed 0 "" ""
  subUpdateOutcome := ExecOutcome.completed 0 "" ""
  gitmodulesIsFile := true }

/-- The complete whitelist of command argument vectors the orchestrator can
execute: fetch, the two post-fetch read-only re-checks, plain pull, clone,
and the two submodule steps.  No merge, rebase, reset or push subcommand
appears, and the pull carries no flags. -/
def gitArgsOK (args : List String) : Prop :=
  args = ["git", "fetch"] ∨
  args = ["git", "status", "--porcelain"] ∨
  args = ["git", "ls-files", "--unmerged"] ∨
  args = ["git", "pull"] ∨
  (∃ url dest, args = ["git", "clone", url, dest]) ∨
  args = ["git", "submodule", "init"] ∨
  args = ["git", "submodule", "update", "--recursive"]

/-- C9: the command runner always returns a structured triple and maps any
internal execution failure to the distinguished non-zero exit code 99 with
the failure description in stderr. -/
theorem run_command_total_and_absorbing (cmd : List String) (cwd : Option String)
    (t : Nat) (d : String) :
    run_command cmd cwd t (ExecOutcome.failed d) = (99, "", d) ∧ (99 : Int) ≠ 0 ∧
    ∀ outcome : ExecOutcome, ∃ c o e, run_command cmd cwd t outcome = (c, o, e) := by
  refine ⟨rfl, by decide, ?_⟩
  intro o
  exact ⟨_, _, _, rfl⟩

/-- C3 counterexample: a repository whose local metadata is present and
whose unmerged-path query fails to execute is classified SYNCHRONIZED, not
CONFLICT, when every other query reports a clean synchronized tree. -/
theorem cls_unmerged_failure_not_conflict :
    envC3.gitDirIsDir = true ∧
    (clsUnmerged "root/demo" envC3).1 ≠ 0 ∧
    (local_repo_status "root/demo" "git@alias:owner/demo.git" envC3).1 = "SYNCHRONIZED" ∧
    (local_repo_status "root/demo" "git@alias:owner/demo.git" envC3).1 ≠ "CONFLICT" := by
  decide

/-- C3 amended: a failed status or branch query yields CONFLICT, but a
failure of the unmerged-path query alone is ignored: classification behaves
exactly as if the listing were empty, and never crashes (the classifier is
total). -/
theorem cls_query_failures (p u : String) (env : GitEnv)
    (hg : env.gitDirIsDir = true) :
    ((clsStatus p env).1 ≠ 0 →
      local_repo_status p u env = ("CONFLICT", "-", repo_has_submodules env)) ∧
    ((clsStatus p env).1 = 0 → (clsBranch p env).1 ≠ 0 →
      local_repo_status p u env = ("CONFLICT", "-", repo_has_submodules env)) ∧
    ((clsUnmerged p env).1 ≠ 0 →
      local_repo_status p u env =
        local_repo_status p u { env with lsFilesOutcome := ExecOutcome.completed 0 "" "" }) := by
  refine ⟨?_, ?_, ?_⟩
  · intro h
    simp [local_repo_status, hg, h]
  · intro h0 h1
    simp [local_repo_status, hg, h0, h1]
  · intro h
    have hL : ¬ ((clsUnmerged p env).1 = 0 ∧ pyStrip (clsUnmerged p env).2.1 ≠ "") := by
      intro hc
      exact h hc.1
    have eU : clsUnmerged p { env with lsFilesOutcome := ExecOutcome.completed 0 "" "" }
        = ((0 : Int), "", "") := rfl
    have eP : pyStrip "" = "" := rfl
    simp [local_repo_status, clsStatus, clsBranch, clsRemote, clsRevList, clsLog, clsDays,
      repo_has_submodules, hL, eU, eP]

/-- C4 counterexample: with the status, branch and remote-refresh queries
all succeeding and a non-empty unmerged listing available, a failure of the
ahead/behind count query makes classification return SYNCHRONIZED rather
than CONFLICT — the count-query failure also pre-empts the unmerged check. -/
theorem cls_unmerged_preempted_by_revlist :
    (clsStatus "root/demo" envC4).1 = 0 ∧
    (clsBranch "root/demo" envC4).1 = 0 ∧
    (clsRemote "root/demo" envC4).1 = 0 ∧
    (clsUnmerged "root/demo" envC4).1 = 0 ∧
    pyStrip (clsUnmerged "root/demo" envC4).2.1 ≠ "" ∧
    (local_repo_status "root/demo" "git@alias:owner/demo.git" envC4).1 = "SYNCHRONIZED" ∧
    (local_repo_status "root/demo" "git@alias:owner/demo.git" envC4).1 ≠ "CONFLICT" := by
  decide

/-- C4 amended: whenever the metadata directory exists, the status, branch,
remote-refresh and ahead/behind count queries all succeed, and the unmerged
listing is non-empty, classification yields CONFLICT regardless of the
dirty, ahead and behind values. -/
theorem cls_unmerged_nonempty_conflict (p u : String) (env : GitEnv)
    (hg : env.gitDirIsDir = true)
    (h1 : (clsStatus p env).1 = 0)
    (h2 : (clsBranch p env).1 = 0)
    (h3 : (clsRemote p env).1 = 0)
    (h4 : (clsRevList p env).1 = 0)
    (h5 : (clsUnmerged p env).1 = 0)
    (h6 : pyStrip (clsUnmerged p env).2.1 ≠ "") :
    local_repo_status p u env = ("CONFLICT", (clsBranch p env).2.1, repo_has_submodules env) := by
  simp [local_repo_status, hg, h1, h2, h3, h4, h5, h6]

/-- C4 amended, witness: a dirty tree diverging in both directions with a
non-empty unmerged listing is classified CONFLICT. -/
theorem cls_unmerged_nonempty_conflict_witness :
    (envC4W.gitDirIsDir = true ∧ (clsStatus "root/demo" envC4W).1 = 0 ∧
     (clsBranch "root/demo" envC4W).1 = 0 ∧ (clsRemote "root/demo" envC4W).1 = 0 ∧
     (clsRevList "root/demo" envC4W).1 = 0 ∧ (clsUnmerged "root/demo" envC4W).1 = 0 ∧
     pyStrip (clsUnmerged "root/demo" envC4W).2.1 ≠ "") ∧
    local_repo_status "root/demo" "u" envC4W
      = ("CONFLICT", (clsBranch "root/demo" envC4W).2.1, repo_has_submodules envC4W) :=
  ⟨⟨by decide, by decide, by decide, by decide, by decide, by decide, by decide⟩,
   cls_unmerged_nonempty_conflict "root/demo" "u" envC4W (by decide) (by decide) (by decide)
     (by decide) (by decide) (by decide) (by decide)⟩

/-- C5 counterexample: on a bare path with no version-control metadata
directory but with a submodule-configuration file present, the classifier
returns hasSubmodules = false without performing the presence check, so the
returned flag does not reflect the file actually present there. -/
theorem cls_not_present_submodules_hardcoded :
    envC5.gitDirIsDir = false ∧
    repo_has_submodules envC5 = true ∧
    local_repo_status "root/demo" "git@alias:owner/demo.git" envC5 = ("NOT PRESENT", "-", false) ∧
    (local_repo_status "root/demo" "git@alias:owner/demo.git" envC5).2.2 ≠ repo_has_submodules envC5 := by
  decide

/-- C5 amended: with no version-control metadata directory the classifier
returns NOT PRESENT with the sentinel branch, and hasSubmodules is the
hard-coded constant false — no presence check is performed on the bare
path. -/
theorem cls_not_present (p u : String) (env : GitEnv)
    (hg : env.gitDirIsDir = false) :
    local_repo_status p u env = ("NOT PRESENT", "-", false) := by
  simp [local_repo_status, hg]

/-- C5 amended, witness: the bare path with a submodule file is classified
NOT PRESENT with hasSubmodules false. -/
theorem cls_not_present_witness :
    envC5.gitDirIsDir = false ∧
    local_repo_status "root/demo" "u" envC5 = ("NOT PRESENT", "-", false) :=
  ⟨by decide, cls_not_present "root/demo" "u" envC5 (by decide)⟩

/-- C6: for a clean, unconflicted repository with behind > 0 and ahead = 0,
elapsed days below 30 yield OUT OF DATE, 30 or more yield OBSOLETE
(including exactly 30), and a failed or empty timestamp query (or an
unparsable timestamp) is treated as 0 elapsed days, hence OUT OF DATE. -/
theorem cls_recency_split (p u : String) (env : GitEnv)
    (hg : env.gitDirIsDir = true)
    (h1 : (clsStatus p env).1 = 0)
    (hclean : pyStrip (clsStatus p env).2.1 = "")
    (h2 : (clsBranch p env).1 = 0)
    (h3 : (clsRemote p env).1 = 0)
    (h4 : (clsRevList p env).1 = 0)
    (hb : 0 < (parseCounts (clsRevList p env).2.1).1)
    (ha : (parseCounts (clsRevList p env).2.1).2 = 0)
    (hu : ¬ ((clsUnmerged p env).1 = 0 ∧ pyStrip (clsUnmerged p env).2.1 ≠ "")) :
    (clsDays p env < 30 → (local_repo_status p u env).1 = "OUT OF DATE") ∧
    (30 ≤ clsDays p env → (local_repo_status p u env).1 = "OBSOLETE") ∧
    (clsDays p env = 30 → (local_repo_status p u env).1 = "OBSOLETE") ∧
    (¬ ((clsLog p env).1 = 0 ∧ (clsLog p env).2.1 ≠ "") →
      clsDays p env = 0 ∧ (local_repo_status p u env).1 = "OUT OF DATE") ∧
    (env.daysSince (clsLog p env).2.1 = none →
      clsDays p env = 0 ∧ (local_repo_status p u env).1 = "OUT OF DATE") := by
  have hout : clsDays p env < 30 → (local_repo_status p u env).1 = "OUT OF DATE" := by
    intro h
    have h30 : ¬ (clsDays p env ≥ 30) := by omega
    simp [local_repo_status, hg, h1, h2, h3, h4, hclean, hu, hb, h30]
  refine ⟨hout, ?_, ?_, ?_, ?_⟩
  · intro h
    simp [local_repo_status, hg, h1, h2, h3, h4, hclean, hu, hb, h]
  · intro h
    have h30 : clsDays p env ≥ 30 := by omega
    simp [local_repo_status, hg, h1, h2, h3, h4, hclean, hu, hb, h30]
  · intro h
    have hz : clsDays p env = 0 := by simp [clsDays, h]
    exact ⟨hz, hout (by omega)⟩
  · intro h
    have hz : clsDays p env = 0 := by
      by_cases hc : (clsLog p env).1 = 0 ∧ (clsLog p env).2.1 ≠ ""
      · simp [clsDays, hc, h]
      · simp [clsDays, hc]
    exact ⟨hz, hout (by omega)⟩

/-- C6 witness: a clean tree behind by 2 whose newest upstream-only commit
is exactly 30 days old satisfies the hypotheses; in particular the boundary
case is OBSOLETE. -/
theorem cls_recency_split_witness :
    (envC6W.gitDirIsDir = true ∧ (clsStatus "root/demo" envC6W).1 = 0 ∧
     pyStrip (clsStatus "root/demo" envC6W).2.1 = "" ∧
     (clsBranch "root/demo" envC6W).1 = 0 ∧ (clsRemote "root/demo" envC6W).1 = 0 ∧
     (clsRevList "root/demo" envC6W).1 = 0 ∧
     0 < (parseCounts (clsRevList "root/demo" envC6W).2.1).1 ∧
     (parseCounts (clsRevList "root/demo" envC6W).2.1).2 = 0 ∧
     ¬ ((clsUnmerged "root/demo" envC6W).1 = 0 ∧
        pyStrip (clsUnmerged "root/demo" envC6W).2.1 ≠ "")) ∧
    (clsDays "root/demo" envC6W < 30 →
      (local_repo_status "root/demo" "u" envC6W).1 = "OUT OF DATE") ∧
    (30 ≤ clsDays "root/demo" envC6W →
      (local_repo_status "root/demo" "u" envC6W).1 = "OBSOLETE") ∧
    (clsDays "root/demo" envC6W = 30 →
      (local_repo_status "root/demo" "u" envC6W).1 = "OBSOLETE") ∧
    (¬ ((clsLog "root/demo" envC6W).1 = 0 ∧ (clsLog "root/demo" envC6W).2.1 ≠ "") →
      clsDays "root/demo" envC6W = 0 ∧
      (local_repo_status "root/demo" "u" envC6W).1 = "OUT OF DATE") ∧
    (envC6W.daysSince (clsLog "root/demo" envC6W).2.1 = none →
      clsDays "root/demo" envC6W = 0 ∧
      (local_repo_status "root/demo" "u" envC6W).1 = "OUT OF DATE") :=
  ⟨⟨by decide, by decide, by decide, by decide, by decide, by decide, by decide, by decide,
    by decide⟩,
   cls_recency_split "root/demo" "u" envC6W (by decide) (by decide) (by decide) (by decide)
     (by decide) (by decide) (by decide) (by decide) (by decide)⟩

/-- C7: a dirty working tree together with any positive ahead or behind
count (queries succeeding, no unmerged paths) is classified DESYNCHRONIZED,
never MODIFIED or OUT OF DATE. -/
theorem cls_dirty_divergence (p u : String) (env : GitEnv)
    (hg : env.gitDirIsDir = true)
    (h1 : (clsStatus p env).1 = 0)
    (hdirty : pyStrip (clsStatus p env).2.1 ≠ "")
    (h2 : (clsBranch p env).1 = 0)
    (h3 : (clsRemote p env).1 = 0)
    (h4 : (clsRevList p env).1 = 0)
    (hdiv : 0 < (parseCounts (clsRevList p env).2.1).1 ∨
            0 < (parseCounts (clsRevList p env).2.1).2)
    (hu : ¬ ((clsUnmerged p env).1 = 0 ∧ pyStrip (clsUnmerged p env).2.1 ≠ "")) :
    (local_repo_status p u env).1 = "DESYNCHRONIZED" ∧
    (local_repo_status p u env).1 ≠ "MODIFIED" ∧
    (local_repo_status p u env).1 ≠ "OUT OF DATE" := by
  have h : (local_repo_status p u env).1 = "DESYNCHRONIZED" := by
    rcases hdiv with hb | ha
    · simp [local_repo_status, hg, h1, h2, h3, h4, hdirty, hu, hb]
    · simp [local_repo_status, hg, h1, h2, h3, h4, hdirty, hu, ha]
  refine ⟨h, ?_, ?_⟩ <;> rw [h] <;> decide

/-- C7 witness: a dirty tree behind by 1 with no unmerged paths is
DESYNCHRONIZED. -/
theorem cls_dirty_divergence_witness :
    (envC7W.gitDirIsDir = true ∧ (clsStatus "root/demo" envC7W).1 = 0 ∧
     pyStrip (clsStatus "root/demo" envC7W).2.1 ≠ "" ∧
     (clsBranch "root/demo" envC7W).1 = 0 ∧ (clsRemote "root/demo" envC7W).1 = 0 ∧
     (clsRevList "root/demo" envC7W).1 = 0 ∧
     (0 < (parseCounts (clsRevList "root/demo" envC7W).2.1).1 ∨
      0 < (parseCounts (clsRevList "root/demo" envC7W).2.1).2) ∧
     ¬ ((clsUnmerged "root/demo" envC7W).1 = 0 ∧
        pyStrip (clsUnmerged "root/demo" envC7W).2.1 ≠ "")) ∧
    (local_repo_status "root/demo" "u" envC7W).1 = "DESYNCHRONIZED" ∧
    (local_repo_status "root/demo" "u" envC7W).1 ≠ "MODIFIED" ∧
    (local_repo_status "root/demo" "u" envC7W).1 ≠ "OUT OF DATE" :=
  ⟨⟨by decide, by decide, by decide, by decide, by decide, by decide, by decide, by decide⟩,
   cls_dirty_divergence "root/demo" "u" envC7W (by decide) (by decide) (by decide) (by decide)
     (by decide) (by decide) (by decide) (by decide)⟩

/-- The submodule updater events are a suffix of the Phase A member events
whenever the fetch succeeded: the updater runs in the pull branch and in
the skip branch alike. -/
lemma ensure_suffix_phaseA (e : OrchEnv) (r : RepoRecord)
    (hf : (orchFetch e r.path).1 = 0) :
    List.IsSuffix (ensure_submodules e r.path) (phaseA_member e r) := by
  simp only [phaseA_member]
  rw [if_neg (by simp [hf])]
  by_cases hd : ¬ (pyStrip (orchStatus e r.path).2.1 ≠ "") ∧
      ¬ (pyStrip (orchUnmerged e r.path).2.1 ≠ "")
  · rw [if_pos hd]
    exact (List.suffix_append _ _).trans
      ((List.suffix_cons _ _).trans ((List.suffix_cons _ _).trans
        ((List.suffix_cons _ _).trans ((List.suffix_cons _ _).trans (List.suffix_cons _ _)))))
  · rw [if_neg hd]
    exact (List.suffix_append _ _).trans
      ((List.suffix_cons _ _).trans ((List.suffix_cons _ _).trans
        ((List.suffix_cons _ _).trans (List.suffix_cons _ _))))

/-- A pull command never occurs among the submodule updater events. -/
lemma pull_not_mem_ensure (e : OrchEnv) (p : String) (c : Option String) :
    Event.exec c ["git", "pull"] ∉ ensure_submodules e p := by
  unfold ensure_submodules
  split_ifs <;> simp

/-- C8: in Phase A, after a successful fetch the dirty and unmerged states
are re-checked; if both are clean a pull is performed and the submodule
updater invoked, and if either indicates dirt or conflict the pull is
skipped, the corresponding warning is emitted, and the submodule updater is
still invoked. -/
theorem phaseA_postfetch (e : OrchEnv) (r : RepoRecord)
    (hf : (orchFetch e r.path).1 = 0) :
    Event.exec (some r.path) ["git", "status", "--porcelain"] ∈ phaseA_member e r ∧
    Event.exec (some r.path) ["git", "ls-files", "--unmerged"] ∈ phaseA_member e r ∧
    (pyStrip (orchStatus e r.path).2.1 = "" ∧ pyStrip (orchUnmerged e r.path).2.1 = "" →
      Event.exec (some r.path) ["git", "pull"] ∈ phaseA_member e r) ∧
    (pyStrip (orchStatus e r.path).2.1 ≠ "" ∨ pyStrip (orchUnmerged e r.path).2.1 ≠ "" →
      (∀ c : Option String, Event.exec c ["git", "pull"] ∉ phaseA_member e r) ∧
      (pyStrip (orchStatus e r.path).2.1 ≠ "" →
        Event.warn ("Skipped pull in " ++ r.name ++ " due to local changes") ∈ phaseA_member e r) ∧
      (pyStrip (orchUnmerged e r.path).2.1 ≠ "" →
        Event.warn ("Skipped pull in " ++ r.name ++ " due to merge conflicts") ∈ phaseA_member e r)) ∧
    List.IsSuffix (ensure_submodules e r.path) (phaseA_member e r) := by
  refine ⟨?_, ?_, ?_, ?_, ensure_suffix_phaseA e r hf⟩
  · simp [phaseA_member, hf]
  · simp [phaseA_member, hf]
  · intro h
    simp [phaseA_member, hf, h.1, h.2]
  · intro h
    have hcond : ¬ (¬ (pyStrip (orchStatus e r.path).2.1 ≠ "") ∧
        ¬ (pyStrip (orchUnmerged e r.path).2.1 ≠ "")) := by
      rcases h with h | h
      · exact fun hc => hc.1 h
      · exact fun hc => hc.2 h
    refine ⟨?_, ?_, ?_⟩
    · intro c
      simp only [phaseA_member]
      rw [if_neg (by simp [hf]), if_neg hcond]
      intro hmem
      split_ifs at hmem <;> simp [pull_not_mem_ensure e r.path c] at hmem
    · intro hd
      simp only [phaseA_member]
      rw [if_neg (by simp [hf]), if_neg hcond]
      simp [hd]
    · intro hc
      simp only [phaseA_member]
      rw [if_neg (by simp [hf]), if_neg hcond]
      simp [hc]

/-- C8 witness: with a successful fetch and a dirty post-fetch re-check,
the skip branch applies. -/
theorem phaseA_postfetch_witness :
    (orchFetch oeC8 rC1.path).1 = 0 ∧
    (Event.exec (some rC1.path) ["git", "status", "--porcelain"] ∈ phaseA_member oeC8 rC1 ∧
     Event.exec (some rC1.path) ["git", "ls-files", "--unmerged"] ∈ phaseA_member oeC8 rC1 ∧
     (pyStrip (orchStatus oeC8 rC1.path).2.1 = "" ∧ pyStrip (orchUnmerged oeC8 rC1.path).2.1 = "" →
       Event.exec (some rC1.path) ["git", "pull"] ∈ phaseA_member oeC8 rC1) ∧
     (pyStrip (orchStatus oeC8 rC1.path).2.1 ≠ "" ∨ pyStrip (orchUnmerged oeC8 rC1.path).2.1 ≠ "" →
       (∀ c : Option String, Event.exec c ["git", "pull"] ∉ phaseA_member oeC8 rC1) ∧
       (pyStrip (orchStatus oeC8 rC1.path).2.1 ≠ "" →
         Event.warn ("Skipped pull in " ++ rC1.name ++ " due to local changes") ∈ phaseA_member oeC8 rC1) ∧
       (pyStrip (orchUnmerged oeC8 rC1.path).2.1 ≠ "" →
         Event.warn ("Skipped pull in " ++ rC1.name ++ " due to merge conflicts") ∈ phaseA_member oeC8 rC1)) ∧
     List.IsSuffix (ensure_submodules oeC8 rC1.path) (phaseA_member oeC8 rC1)) :=
  ⟨by decide, phaseA_postfetch oeC8 rC1 (by decide)⟩

/-- C10: in Phase A, when the post-fetch status and unmerged re-checks both
fail to execute, their empty stdout is taken as a clean, unconflicted state
(the exit codes are ignored) and the pull is still issued. -/
theorem phaseA_unreadable_still_pulls (e : OrchEnv) (r : RepoRecord) (d1 d2 : String)
    (hf : (orchFetch e r.path).1 = 0)
    (hs : e.statusOutcome = ExecOutcome.failed d1)
    (hu : e.lsFilesOutcome = ExecOutcome.failed d2) :
    pyStrip (orchStatus e r.path).2.1 = "" ∧
    pyStrip (orchUnmerged e r.path).2.1 = "" ∧
    Event.exec (some r.path) ["git", "pull"] ∈ phaseA_member e r := by
  have h1 : orchStatus e r.path = (99, "", d1) := by
    simp [orchStatus, run_command, hs]
  have h2 : orchUnmerged e r.path = (99, "", d2) := by
    simp [orchUnmerged, run_command, hu]
  have p1 : pyStrip (orchStatus e r.path).2.1 = "" := by
    rw [h1]
    show pyStrip "" = ""
    decide
  have p2 : pyStrip (orchUnmerged e r.path).2.1 = "" := by
    rw [h2]
    show pyStrip "" = ""
    decide
  refine ⟨p1, p2, ?_⟩
  simp [phaseA_member, hf, p1, p2]

/-- C10 witness: both re-check commands fail to execute, yet the pull is
issued. -/
theorem phaseA_unreadable_still_pulls_witness :
    ((orchFetch oeC10 rC1.path).1 = 0 ∧
     oeC10.statusOutcome = ExecOutcome.failed "status could not be executed" ∧
     oeC10.lsFilesOutcome = ExecOutcome.failed "ls-files could not be executed") ∧
    (pyStrip (orchStatus oeC10 rC1.path).2.1 = "" ∧
     pyStrip (orchUnmerged oeC10 rC1.path).2.1 = "" ∧
     Event.exec (some rC1.path) ["git", "pull"] ∈ phaseA_member oeC10 rC1) :=
  ⟨⟨by decide, by decide, by decide⟩,
   phaseA_unreadable_still_pulls oeC10 rC1 "status could not be executed"
     "ls-files could not be executed" (by decide) (by decide) (by decide)⟩

/-- Every command the submodule updater executes is whitelisted and runs in
the updated repository's working directory. -/
lemma ensure_execs (e : OrchEnv) (p : String) (c : Option String) (a : List String)
    (h : Event.exec c a ∈ ensure_submodules e p) :
    gitArgsOK a ∧ c = some p := by
  unfold ensure_submodules at h
  split_ifs at h
  · simp at h
    obtain ⟨hc, ha⟩ := h
    subst hc
    subst ha
    simp [gitArgsOK]
  · simp at h
    rcases h with ⟨hc, ha⟩ | ⟨hc, ha⟩ <;> subst hc <;> subst ha <;> simp [gitArgsOK]
  · simp at h
    rcases h with ⟨hc, ha⟩ | ⟨hc, ha⟩ <;> subst hc <;> subst ha <;> simp [gitArgsOK]
  · simp at h

/-- Every command a Phase A member executes is whitelisted and runs in that
member's working directory. -/
lemma phaseA_execs (e : OrchEnv) (r : RepoRecord) (c : Option String) (a : List String)
    (h : Event.exec c a ∈ phaseA_member e r) :
    gitArgsOK a ∧ c = some r.path := by
  simp only [phaseA_member] at h
  split_ifs at h <;> simp at h
  all_goals
    first
      | (rcases h with h | h | h | h | h <;>
          first
            | exact ensure_execs e r.path c a h
            | (obtain ⟨hc, ha⟩ := h
               subst hc
               subst ha
               simp [gitArgsOK]))
      | (rcases h with h | h | h | h <;>
          first
            | exact ensure_execs e r.path c a h
            | (obtain ⟨hc, ha⟩ := h
               subst hc
               subst ha
               simp [gitArgsOK]))
      | (obtain ⟨hc, ha⟩ := h
         subst hc
         subst ha
         simp [gitArgsOK])

/-- Every command a Phase B member executes is whitelisted; the clone runs
with no working directory and the submodule steps run in the new clone. -/
lemma phaseB_execs (e : OrchEnv) (r : RepoRecord) (c : Option String) (a : List String)
    (h : Event.exec c a ∈ phaseB_member e r) :
    gitArgsOK a ∧ (c = none ∨ c = some r.path) := by
  simp only [phaseB_member] at h
  split_ifs at h <;> simp at h
  all_goals
    first
      | (rcases h with h | h <;>
          first
            | (obtain ⟨hc, ha⟩ := h
               subst hc
               subst ha
               exact ⟨Or.inr (Or.inr (Or.inr (Or.inr (Or.inl ⟨_, _, rfl⟩)))), Or.inl rfl⟩)
            | (obtain ⟨h1, h2⟩ := ensure_execs e r.path c a h
               exact ⟨h1, Or.inr h2⟩))
      | (obtain ⟨hc, ha⟩ := h
         subst hc
         subst ha
         exact ⟨Or.inr (Or.inr (Or.inr (Or.inr (Or.inl ⟨_, _, rfl⟩)))), Or.inl rfl⟩)

/-- Every command a Phase C member executes is whitelisted and runs in that
member's working directory. -/
lemma phaseC_execs (e : OrchEnv) (r : RepoRecord) (c : Option String) (a : List String)
    (h : Event.exec c a ∈ phaseC_member e r) :
    gitArgsOK a ∧ c = some r.path := by
  simp only [phaseC_member] at h
  split_ifs at h <;> simp at h
  all_goals
    first
      | (rcases h with h | h <;>
          first
            | exact ensure_execs e r.path c a h
            | (obtain ⟨hc, ha⟩ := h
               subst hc
               subst ha
               simp [gitArgsOK]))
      | (obtain ⟨hc, ha⟩ := h
         subst hc
         subst ha
         simp [gitArgsOK])

/-- C1 amended: every command the orchestrator executes, for every
repository list, environment and sequence of operator answers, comes from
the fixed whitelist (fetch, the two read-only re-checks, plain pull, clone,
submodule init, submodule update); its first element is the
version-control tool and its subcommand position never holds merge, rebase,
reset or push.  The whitelist shows the only pull vector is the plain,
flagless one: the code does not restrict the pull to fast-forward. -/
theorem orch_no_destructive_commands (oe : String → OrchEnv) (checked : List RepoRecord)
    (aU aC aF : Bool) (c : Option String) (a : List String)
    (h : Event.exec c a ∈ do_updates_and_clones oe checked aU aC aF) :
    gitArgsOK a ∧
    a.head? = some "git" ∧
    a.get? 1 ≠ some "merge" ∧ a.get? 1 ≠ some "rebase" ∧
    a.get? 1 ≠ some "reset" ∧ a.get? 1 ≠ some "push" := by
  have hok : gitArgsOK a := by
    simp only [do_updates_and_clones, List.mem_append] at h
    rcases h with ((((h | h) | h) | h) | h) | h
    · split_ifs at h <;> simp at h
    · split_ifs at h <;> simp at h
    · split_ifs at h <;> simp at h
    · rcases List.mem_flatMap.1 h with ⟨r, hr, hm⟩
      split_ifs at hm
      · exact (phaseA_execs _ r c a hm).1
      · simp at hm
    · rcases List.mem_flatMap.1 h with ⟨r, hr, hm⟩
      split_ifs at hm
      · exact (phaseB_execs _ r c a hm).1
      · simp at hm
    · rcases List.mem_flatMap.1 h with ⟨r, hr, hm⟩
      split_ifs at hm
      · exact (phaseC_execs _ r c a hm).1
      · simp at hm
  refine ⟨hok, ?_⟩
  rcases hok with h1 | h1 | h1 | h1 | ⟨u2, d2, h1⟩ | h1 | h1 <;> subst h1 <;>
    exact ⟨rfl, by simp, by simp, by simp, by simp⟩

/-- C1 counterexample: the claim that the Phase A pull is fast-forward only
because no local divergence was detected at classification time is false on
the code: a clean repository whose count query reports behind = 3 and
ahead = 2 is classified OUT OF DATE (divergence was detected), Phase A then
issues the plain, flagless pull for it, and no command in the whole run
carries a fast-forward-only flag. -/
theorem orch_plain_pull_on_diverged :
    rC1.status = (local_repo_status "root/demo" "git@alias:owner/demo.git" envC1).1 ∧
    (local_repo_status "root/demo" "git@alias:owner/demo.git" envC1).1 = "OUT OF DATE" ∧
    0 < (parseCounts (clsRevList "root/demo" envC1).2.1).2 ∧
    Event.exec (some "root/demo") ["git", "pull"] ∈
      do_updates_and_clones (fun _ => oeC1) [rC1] true true true ∧
    Event.exec (some "root/demo") ["git", "pull", "--ff-only"] ∉
      do_updates_and_clones (fun _ => oeC1) [rC1] true true true ∧
    (do_updates_and_clones (fun _ => oeC1) [rC1] true true true).all
      (fun ev => match ev with
        | Event.exec _ args => ! args.contains "--ff-only"
        | _ => true) = true := by
  decide

/-- C1 amended, witness: the whitelist theorem applied to the fetch command
of a concrete run. -/
theorem orch_no_destructive_commands_witness :
    Event.exec (some "root/demo") ["git", "fetch"] ∈
      do_updates_and_clones (fun _ => oeC1) [rC2] true true true ∧
    (gitArgsOK ["git", "fetch"] ∧
     (["git", "fetch"] : List String).head? = some "git" ∧
     (["git", "fetch"] : List String).get? 1 ≠ some "merge" ∧
     (["git", "fetch"] : List String).get? 1 ≠ some "rebase" ∧
     (["git", "fetch"] : List String).get? 1 ≠ some "reset" ∧
     (["git", "fetch"] : List String).get? 1 ≠ some "push") :=
  ⟨by decide,
   orch_no_destructive_commands (fun _ => oeC1) [rC2] true true true (some "root/demo")
     ["git", "fetch"] (by decide)⟩

lemma execsAt_nil (p : String) : execsAt p [] = [] := rfl

lemma execsAt_append (p : String) (l₁ l₂ : List Event) :
    execsAt p (l₁ ++ l₂) = execsAt p l₁ ++ execsAt p l₂ :=
  List.filterMap_append l₁ l₂ _

lemma execsAt_cons_info (p : String) (m : String) (l : List Event) :
    execsAt p (Event.info m :: l) = execsAt p l := by
  simp [execsAt, List.filterMap_cons]

lemma execsAt_cons_warn (p : String) (m : String) (l : List Event) :
    execsAt p (Event.warn m :: l) = execsAt p l := by
  simp [execsAt, List.filterMap_cons]

lemma execsAt_cons_exec_none (p : String) (a : List String) (l : List Event) :
    execsAt p (Event.exec none a :: l) = execsAt p l := by
  simp [execsAt, List.filterMap_cons]

lemma execsAt_cons_exec_some (p q : String) (a : List String) (l : List Event) :
    execsAt p (Event.exec (some q) a :: l) =
      if q = p then a :: execsAt p l else execsAt p l := by
  by_cases h : q = p <;> simp [execsAt, List.filterMap_cons, h]

lemma execsAt_map_info (p : String) (f : RepoRecord → String) (l : List RepoRecord) :
    execsAt p (l.map fun r => Event.info (f r)) = [] := by
  induction l with
  | nil => rfl
  | cons x t ih => rw [List.map_cons, execsAt_cons_info, ih]

lemma execsAt_ensure_ne (e : OrchEnv) (p q : String) (hpq : q ≠ p) :
    execsAt p (ensure_submodules e q) = [] := by
  unfold ensure_submodules
  split_ifs <;>
    simp [execsAt_cons_exec_some, execsAt_cons_warn, execsAt_cons_info, execsAt_nil, hpq]

lemma execsAt_ensure_self (e : OrchEnv) (p : String) :
    execsAt p (ensure_submodules e p) =
      if ¬ e.gitmodulesIsFile then []
      else if (orchSubInit e p).1 ≠ 0 then [["git", "submodule", "init"]]
      else [["git", "submodule", "init"], ["git", "submodule", "update", "--recursive"]] := by
  unfold ensure_submodules
  split_ifs <;>
    simp_all [execsAt_cons_exec_some, execsAt_cons_warn, execsAt_cons_info, execsAt_nil]

lemma execsAt_phaseA_ne (e : OrchEnv) (r : RepoRecord) (p : String) (h : r.path ≠ p) :
    execsAt p (phaseA_member e r) = [] := by
  simp only [phaseA_member]
  split_ifs <;>
    simp [execsAt_cons_info, execsAt_cons_warn, execsAt_cons_exec_some, execsAt_append,
      execsAt_nil, execsAt_ensure_ne e p r.path h, h]

lemma execsAt_phaseB_ne (e : OrchEnv) (r : RepoRecord) (p : String) (h : r.path ≠ p) :
    execsAt p (phaseB_member e r) = [] := by
  simp only [phaseB_member]
  split_ifs <;>
    simp [execsAt_cons_info, execsAt_cons_warn, execsAt_cons_exec_none, execsAt_cons_exec_some,
      execsAt_append, execsAt_nil, execsAt_ensure_ne e p r.path h, h]

lemma execsAt_phaseC_ne (e : OrchEnv) (r : RepoRecord) (p : String) (h : r.path ≠ p) :
    execsAt p (phaseC_member e r) = [] := by
  simp only [phaseC_member]
  split_ifs <;>
    simp [execsAt_cons_info, execsAt_cons_warn, execsAt_cons_exec_some, execsAt_append,
      execsAt_nil, execsAt_ensure_ne e p r.path h, h]

lemma execsAt_phaseC_self (e : OrchEnv) (r : RepoRecord) :
    execsAt r.path (phaseC_member e r) =
      ["git", "fetch"] ::
        (if (orchFetch e r.path).1 ≠ 0 then []
         else execsAt r.path (ensure_submodules e r.path)) := by
  simp only [phaseC_member]
  split_ifs with h <;>
    simp [execsAt_cons_info, execsAt_cons_warn, execsAt_cons_exec_some, execsAt_append,
      execsAt_nil, h]

lemma execsAt_flatMap (p : String) (l : List RepoRecord) (g : RepoRecord → List Event)
    (h : ∀ x ∈ l, ¬ x.path = p → execsAt p (g x) = []) :
    execsAt p (l.flatMap g) =
      (l.filter (fun x => x.path == p)).flatMap (fun x => execsAt p (g x)) := by
  induction l with
  | nil => rfl
  | cons x t ih =>
    rw [List.flatMap_cons, execsAt_append, List.filter_cons]
    by_cases hx : x.path = p
    · simp only [hx, beq_self_eq_true, if_pos]
      rw [List.flatMap_cons, ih (fun y hy hyp => h y (List.mem_cons_of_mem _ hy) hyp)]
    · have h0 : execsAt p (g x) = [] := h x (List.mem_cons_self _ _) hx
      have hb : (x.path == p) = false := beq_eq_false_iff_ne.2 hx
      rw [h0, List.nil_append, ih (fun y hy hyp => h y (List.mem_cons_of_mem _ hy) hyp)]
      simp [hb]

lemma filter_path_single (l : List RepoRecord) (r : RepoRecord)
    (hnd : (l.map RepoRecord.path).Nodup) (hr : r ∈ l) :
    l.filter (fun x => x.path == r.path) = [r] := by
  induction l with
  | nil => cases hr
  | cons a t ih =>
    rw [List.map_cons, List.nodup_cons] at hnd
    rcases List.mem_cons.1 hr with rfl | hrt
    · have ht : t.filter (fun x => x.path == r.path) = [] := by
        refine List.filter_eq_nil_iff.2 ?_
        intro x hx
        simp only [beq_iff_eq]
        intro hxp
        exact hnd.1 (hxp ▸ List.mem_map_of_mem RepoRecord.path hx)
      rw [List.filter_cons, if_pos (by simp), ht]
    · have hane : (a.path == r.path) = false := by
        refine beq_eq_false_iff_ne.2 ?_
        intro he
        exact hnd.1 (he ▸ List.mem_map_of_mem RepoRecord.path hrt)
      rw [List.filter_cons, if_neg (by simp [hane]), ih hnd.2 hrt]

lemma execsAt_prompt_nil (p : String) (c : Prop) [inst : Decidable c] (m : String)
    (evs : List Event) (hevs : execsAt p evs = []) :
    execsAt p (if c then Event.info m :: evs else []) = [] := by
  split_ifs with h
  · rw [execsAt_cons_info, hevs]
  · rfl

/-- C2: for a repository classified MODIFIED, CONFLICT or DESYNCHRONIZED
(with all repository paths distinct), the commands the whole orchestrator
run executes in that working directory are exactly: nothing when Phase C is
not confirmed; a fetch alone when the fetch fails; and the fetch followed
by the submodule updater commands when it succeeds.  In particular no pull,
merge or reset is ever issued there. -/
theorem orch_fetch_only_for_flagged (oe : String → OrchEnv) (checked : List RepoRecord)
    (aU aC aF : Bool) (r : RepoRecord)
    (hr : r ∈ checked)
    (hnd : (checked.map RepoRecord.path).Nodup)
    (hs : r.status = "MODIFIED" ∨ r.status = "CONFLICT" ∨ r.status = "DESYNCHRONIZED") :
    execsAt r.path (do_updates_and_clones oe checked aU aC aF) =
      (if aF then
        ["git", "fetch"] ::
          (if (orchFetch (oe r.path) r.path).1 ≠ 0 then []
           else execsAt r.path (ensure_submodules (oe r.path) r.path))
       else []) ∧
    ∀ args ∈ execsAt r.path (do_updates_and_clones oe checked aU aC aF),
      args ≠ ["git", "pull"] ∧ "pull" ∉ args ∧ "merge" ∉ args ∧ "reset" ∉ args := by
  have hinj : ∀ x ∈ checked, x.path = r.path → x = r := fun x hx hxy =>
    List.inj_on_of_nodup_map hnd hx hr hxy
  have hvan : ∀ s : String, ¬ r.status = s →
      (checked.filter (fun x => x.status == s)).filter (fun x => x.path == r.path) = [] := by
    intro s hns
    refine List.filter_eq_nil_iff.2 ?_
    intro x hx
    simp only [beq_iff_eq]
    intro hxp
    have hxc : x ∈ checked := (List.mem_filter.1 hx).1
    have hxs : x.status = s := by simpa using (List.mem_filter.1 hx).2
    exact hns ((hinj x hxc hxp) ▸ hxs)
  have hsing : ∀ s : String, r.status = s →
      (checked.filter (fun x => x.status == s)).filter (fun x => x.path == r.path) = [r] := by
    intro s hsr
    refine filter_path_single _ r ?_ ?_
    · exact hnd.sublist ((List.filter_sublist checked).map RepoRecord.path)
    · exact List.mem_filter.2 ⟨hr, by simp [hsr]⟩
  have hrnf : r ∈ need_fetch checked := by
    unfold need_fetch
    rcases hs with h | h | h
    · exact List.mem_append.2 (Or.inl (List.mem_append.2 (Or.inl
        (List.mem_filter.2 ⟨hr, by simp [h]⟩))))
    · exact List.mem_append.2 (Or.inl (List.mem_append.2 (Or.inr
        (List.mem_filter.2 ⟨hr, by simp [h]⟩))))
    · exact List.mem_append.2 (Or.inr (List.mem_filter.2 ⟨hr, by simp [h]⟩))
  have hne : (need_fetch checked).isEmpty = false := by
    cases hq : need_fetch checked with
    | nil => rw [hq] at hrnf; cases hrnf
    | cons x t => rfl
  have hAseg : execsAt r.path ((need_update checked).flatMap
      (fun x => if (!(need_update checked).isEmpty && aU) = true
        then phaseA_member (oe x.path) x else [])) = [] := by
    rw [execsAt_flatMap]
    · have hOOD : ¬ r.status = "OUT OF DATE" := by rcases hs with h | h | h <;> simp [h]
      have hOBS : ¬ r.status = "OBSOLETE" := by rcases hs with h | h | h <;> simp [h]
      unfold need_update
      rw [List.filter_append, hvan _ hOOD, hvan _ hOBS]
      rfl
    · intro x hx hxp
      split_ifs
      · exact execsAt_phaseA_ne (oe x.path) x r.path hxp
      · rfl
  have hBseg : execsAt r.path ((need_clone checked).flatMap
      (fun x => if (!(need_clone checked).isEmpty && aC) = true
        then phaseB_member (oe x.path) x else [])) = [] := by
    rw [execsAt_flatMap]
    · have hNP : ¬ r.status = "NOT PRESENT" := by rcases hs with h | h | h <;> simp [h]
      unfold need_clone
      rw [hvan _ hNP]
      rfl
    · intro x hx hxp
      split_ifs
      · exact execsAt_phaseB_ne (oe x.path) x r.path hxp
      · rfl
  have hCfilter : (need_fetch checked).filter (fun x => x.path == r.path) = [r] := by
    unfold need_fetch
    rw [List.filter_append, List.filter_append]
    rcases hs with h | h | h
    · rw [hsing _ h, hvan _ (by simp [h]), hvan _ (by simp [h])]
      rfl
    · rw [hsing _ h, hvan _ (by simp [h]), hvan _ (by simp [h])]
      rfl
    · rw [hsing _ h, hvan _ (by simp [h]), hvan _ (by simp [h])]
      rfl
  have hCseg : execsAt r.path ((need_fetch checked).flatMap
      (fun x => if (!(need_fetch checked).isEmpty && aF) = true
        then phaseC_member (oe x.path) x else [])) =
      (if aF then
        ["git", "fetch"] ::
          (if (orchFetch (oe r.path) r.path).1 ≠ 0 then []
           else execsAt r.path (ensure_submodules (oe r.path) r.path))
       else []) := by
    rw [execsAt_flatMap]
    · rw [hCfilter, List.flatMap_cons]
      rw [hne]
      simp only [Bool.not_false, Bool.true_and, List.flatMap_nil, List.append_nil]
      by_cases haF : aF = true
      · rw [if_pos haF, if_pos haF]
        exact execsAt_phaseC_self (oe r.path) r
      · rw [if_neg haF, if_neg haF]
        rfl
    · intro x hx hxp
      split_ifs
      · exact execsAt_phaseC_ne (oe x.path) x r.path hxp
      · rfl
  have htrace : execsAt r.path (do_updates_and_clones oe checked aU aC aF) =
      (if aF then
        ["git", "fetch"] ::
          (if (orchFetch (oe r.path) r.path).1 ≠ 0 then []
           else execsAt r.path (ensure_submodules (oe r.path) r.path))
       else []) := by
    simp only [do_updates_and_clones]
    simp only [execsAt_append]
    rw [execsAt_prompt_nil _ _ _ _ (execsAt_map_info _ _ _),
      execsAt_prompt_nil _ _ _ _ (execsAt_map_info _ _ _),
      execsAt_prompt_nil _ _ _ _ (execsAt_map_info _ _ _),
      hAseg, hBseg, hCseg]
    simp
  refine ⟨htrace, ?_⟩
  intro args hargs
  rw [htrace] at hargs
  split_ifs at hargs with haF hfail
  · rcases List.mem_cons.1 hargs with rfl | hin
    · exact ⟨by decide, by decide, by decide, by decide⟩
    · cases hin
  · rcases List.mem_cons.1 hargs with rfl | hin
    · exact ⟨by decide, by decide, by decide, by decide⟩
    · rw [execsAt_ensure_self] at hin
      split_ifs at hin
      · rcases List.mem_cons.1 hin with rfl | hin2
        · exact ⟨by decide, by decide, by decide, by decide⟩
        · cases hin2
      · rcases List.mem_cons.1 hin with rfl | hin2
        · exact ⟨by decide, by decide, by decide, by decide⟩
        · rcases List.mem_cons.1 hin2 with rfl | hin3
          · exact ⟨by decide, by decide, by decide, by decide⟩
          · cases hin3
      · cases hin
  · cases hargs

/-- C2 witness: a single MODIFIED repository with Phase C confirmed. -/
theorem orch_fetch_only_for_flagged_witness :
    (rC2 ∈ [rC2] ∧ ([rC2].map RepoRecord.path).Nodup ∧
     (rC2.status = "MODIFIED" ∨ rC2.status = "CONFLICT" ∨
      rC2.status = "DESYNCHRONIZED")) ∧
    (execsAt rC2.path (do_updates_and_clones (fun _ => oeC1) [rC2] true true true) =
      (if true then
        ["git", "fetch"] ::
          (if (orchFetch ((fun _ : String => oeC1) rC2.path) rC2.path).1 ≠ 0 then []
           else execsAt rC2.path
             (ensure_submodules ((fun _ : String => oeC1) rC2.path) rC2.path))
       else []) ∧
     ∀ args ∈ execsAt rC2.path (do_updates_and_clones (fun _ => oeC1) [rC2] true true true),
       args ≠ ["git", "pull"] ∧ "pull" ∉ args ∧ "merge" ∉ args ∧ "reset" ∉ args) :=
  ⟨⟨by decide, by decide, Or.inl rfl⟩,
   orch_fetch_only_for_flagged (fun _ => oeC1) [rC2] true true true rC2 (by decide)
     (by decide) (Or.inl rfl)⟩

/-- C3 amended, witness: the query-failure theorem applied to the concrete
environment whose unmerged query fails. -/
theorem cls_query_failures_witness :
    envC3.gitDirIsDir = true ∧
    (((clsStatus "root/demo" envC3).1 ≠ 0 →
       local_repo_status "root/demo" "u" envC3 =
         ("CONFLICT", "-", repo_has_submodules envC3)) ∧
     ((clsStatus "root/demo" envC3).1 = 0 → (clsBranch "root/demo" envC3).1 ≠ 0 →
       local_repo_status "root/demo" "u" envC3 =
         ("CONFLICT", "-", repo_has_submodules envC3)) ∧
     ((clsUnmerged "root/demo" envC3).1 ≠ 0 →
       local_repo_status "root/demo" "u" envC3 =
         local_repo_status "root/demo" "u"
           { envC3 with lsFilesOutcome := ExecOutcome.completed 0 "" "" })) :=
  ⟨by decide, cls_query_failures "root/demo" "u" envC3 (by decide)⟩
